import Mathlib

/-!
# Verification of `rp2040-hal/src/xosc.rs` (Crystal Oscillator driver)

Shallow embedding of the XOSC driver from `src/rp2040-hal/src/xosc.rs`.

Modelling conventions:
* `HertzU32` (from the `fugit` crate) is a wrapper over a `u32` count of
  hertz; we model the raw count as a `Nat` (callers pass `u32` values, so
  the raw count is below `2^32`; the bounds that matter are stated
  explicitly in the theorems).  `to_kHz` is truncating division by 1000,
  as in `fugit`'s unit conversion.
* The XOSC register block is modelled by `XoscRegs`: the CTRL register is
  a record of its two fields (`freq_range`, `enable`); STARTUP holds the
  16-bit delay field; STATUS contributes the single `stable` bit that the
  driver reads; DORMANT holds a raw 32-bit word.
* svd2rust semantics: `reg.write(|w| ...)` starts from the register's
  reset value and sets only the named fields, so a `write` resets every
  field the closure does not mention; `reg.modify(|r, w| ...)` starts
  from the value just read, so unmentioned fields are preserved.
* Every register-mutating operation also returns the list of write events
  it performed, in order (`WriteEvent`), so that frame conditions
  ("performs no register writes", "exactly N writes") are statable.
* `nb::Result<T, Infallible>` is modelled by `Except (NbError Empty) T`:
  `WouldBlock` is `NbError.wouldBlock`, and a hard error would be
  `NbError.other e` with `e : Empty`, which is uninhabited exactly as
  `Infallible` is.
* `nb::block!` busy-polls `await_stabilization` until it stops returning
  `WouldBlock`.  Polling performs no writes, so the register state (and
  hence the `stable` bit read by each iteration) is the same at every
  iteration of the loop in this model: the loop terminates (after the
  first read) iff the `stable` bit is set, and otherwise the source loops
  forever, which we represent by the explicit `SetupResult.diverges`
  outcome.
-/

namespace Xosc

/-- `fugit::HertzU32`: a frequency as a raw count of hertz. -/
structure HertzU32 where
  raw : Nat
deriving DecidableEq, Repr

/-- `fugit` conversion `to_kHz()`: hertz to kilohertz, truncating. -/
def HertzU32.to_kHz (f : HertzU32) : Nat :=
  f.raw / 1000

/-- `fugit` constructor `HertzU32::MHz(n)`. -/
def HertzU32.MHz (n : Nat) : HertzU32 :=
  ⟨n * 1000000⟩

/-- `xosc::Error`: possible errors when initializing the CrystalOscillator. -/
inductive Error where
  | FrequencyOutOfRange
  | BadArgument
deriving DecidableEq, Repr

/-- The CTRL register `FREQ_RANGE` field.  `reset` is the field's reset
value (what a `write` leaves when the closure does not set it);
`range_1_15mhz` is the value written by `w.freq_range()._1_15mhz()`. -/
inductive FreqRangeField where
  | reset
  | range_1_15mhz
deriving DecidableEq, Repr

/-- The CTRL register `ENABLE` field.  `reset` is the field's reset value;
`enable` / `disable` are the magic values written by `w.enable().enable()`
and `w.enable().disable()`. -/
inductive EnableField where
  | reset
  | enable
  | disable
deriving DecidableEq, Repr

/-- The XOSC CTRL register, as the record of its fields. -/
structure CtrlReg where
  freq_range : FreqRangeField
  enable : EnableField
deriving DecidableEq, Repr

/-- The XOSC register block, restricted to the registers the driver
touches: CTRL, STARTUP (its `DELAY` field), STATUS (its `STABLE` bit,
which the driver only reads), and DORMANT. -/
structure XoscRegs where
  ctrl : CtrlReg
  startup_delay : Nat
  status_stable : Bool
  dormant : Nat
deriving DecidableEq, Repr

/-- One hardware register write performed by the driver, carrying the
value written. -/
inductive WriteEvent where
  | ctrl (v : CtrlReg)
  | startup (v : Nat)
  | dormant (v : Nat)
deriving DecidableEq, Repr

/-- Typestate payload of `CrystalOscillator<Initialized>`. -/
structure Initialized where
  freq_hz : HertzU32
deriving DecidableEq, Repr

/-- Typestate payload of `CrystalOscillator<Stable>`. -/
structure Stable where
  freq_hz : HertzU32
deriving DecidableEq, Repr

/-- `StableOscillatorToken`: the zero-sized proof token given when the
oscillator has stabilized. -/
structure StableOscillatorToken where
deriving DecidableEq, Repr

/-- The `nb` crate's error type: `WouldBlock` or a hard error `E`. -/
inductive NbError (E : Type) where
  | wouldBlock
  | other (e : E)
deriving DecidableEq

/-- `CrystalOscillator::<Disabled>::initialize(frequency, stable_delay_millis)`
(named `initOsc` here because `initialize` is a Lean keyword),
translated statement by statement from the source.  Returns the Rust
result, the register state after the call, and the list of register
writes performed, in order.

Source order (load-bearing): (1) range-check the frequency and return
`FrequencyOutOfRange` with no writes if it fails; (2) `ctrl.write`
selecting the 1–15 MHz frequency range; (3) validate
`stable_delay_millis` (`0` and anything above `1000` is `BadArgument`);
(4) compute `startup_delay = (frequency.to_kHz() * stable_delay_millis) / 256`,
cast to `u16`, and `startup.write` it; (5) `ctrl.write` enabling the
oscillator. -/
def initOsc (regs : XoscRegs) (frequency : HertzU32) (stable_delay_millis : Nat) :
    Except Error Initialized × XoscRegs × List WriteEvent :=
  if ¬((HertzU32.MHz 1).raw ≤ frequency.raw ∧ frequency.raw ≤ (HertzU32.MHz 15).raw) then
    (.error .FrequencyOutOfRange, regs, [])
  else
    let ctrlFreqRange : CtrlReg := { freq_range := .range_1_15mhz, enable := .reset }
    let regs1 : XoscRegs := { regs with ctrl := ctrlFreqRange }
    if stable_delay_millis = 0 ∨ 1000 < stable_delay_millis then
      (.error .BadArgument, regs1, [.ctrl ctrlFreqRange])
    else
      let startup_delay : Nat := frequency.to_kHz * stable_delay_millis / 256
      let startup_delay_u16 : Nat := startup_delay % 65536
      let regs2 : XoscRegs := { regs1 with startup_delay := startup_delay_u16 }
      let ctrlEnable : CtrlReg := { freq_range := .reset, enable := .enable }
      let regs3 : XoscRegs := { regs2 with ctrl := ctrlEnable }
      (.ok { freq_hz := frequency }, regs3,
        [.ctrl ctrlFreqRange, .startup startup_delay_u16, .ctrl ctrlEnable])

/-- `CrystalOscillator::<Initialized>::await_stabilization()`: reads the
STATUS register's `stable` bit; `WouldBlock` while it is clear, a
`StableOscillatorToken` once it is set.  Returns the (unchanged) register
state and the (empty) list of writes performed alongside the result. -/
def await_stabilization (regs : XoscRegs) :
    Except (NbError Empty) StableOscillatorToken × XoscRegs × List WriteEvent :=
  if regs.status_stable = false then
    (.error .wouldBlock, regs, [])
  else
    (.ok {}, regs, [])

/-- `CrystalOscillator::<Initialized>::get_stable(token)`: consumes the
readiness token and carries the stored frequency forward unchanged.
Takes no register state: the source performs no hardware access. -/
def get_stable (st : Initialized) (_token : StableOscillatorToken) : Stable :=
  { freq_hz := st.freq_hz }

/-- `CrystalOscillator::<Stable>::operating_frequency()`. -/
def operating_frequency (st : Stable) : HertzU32 :=
  st.freq_hz

/-- `CrystalOscillator::<Stable>::disable()`: a `ctrl.modify` that sets the
`ENABLE` field to its disable value, preserving every other field of CTRL
(svd2rust `modify` starts from the value just read). -/
def disable (regs : XoscRegs) : XoscRegs × List WriteEvent :=
  let newCtrl : CtrlReg := { regs.ctrl with enable := .disable }
  ({ regs with ctrl := newCtrl }, [.ctrl newCtrl])

/-- The magic word written to DORMANT (taken from the C SDK). -/
def XOSC_DORMANT_VALUE : Nat := 0x636f6d61

/-- `CrystalOscillator::<Stable>::dormant()`: writes the magic word to the
DORMANT register. -/
def dormant (regs : XoscRegs) : XoscRegs × List WriteEvent :=
  ({ regs with dormant := XOSC_DORMANT_VALUE }, [.dormant XOSC_DORMANT_VALUE])

/-- Outcome of `setup_xosc_blocking`: the source either returns
`Err` (from `initOsc`), returns `Ok` with a stable oscillator, or
busy-polls forever (`diverges`) when the `stable` bit never sets.  Each
outcome carries the final register state and the writes performed. -/
inductive SetupResult where
  | diverges (regs : XoscRegs) (trace : List WriteEvent)
  | err (e : Error) (regs : XoscRegs) (trace : List WriteEvent)
  | ok (st : Stable) (regs : XoscRegs) (trace : List WriteEvent)
deriving DecidableEq, Repr

/-- `setup_xosc_blocking(xosc_dev, frequency, stable_delay_millis)`,
translated from the source: `CrystalOscillator::new(dev)` (no hardware
effect), then `initOsc(...)?`, then
`nb::block!(osc.await_stabilization()).unwrap()` (polling
performs no writes, so every iteration reads the same `stable` bit:
`block!` yields the token iff the bit is set, and otherwise the source
loops forever), then `get_stable(token)`. -/
def setup_xosc_blocking (regs : XoscRegs) (frequency : HertzU32)
    (stable_delay_millis : Nat) : SetupResult :=
  match initOsc regs frequency stable_delay_millis with
  | (.error e, regs1, tr1) => .err e regs1 tr1
  | (.ok osc, regs1, tr1) =>
    match await_stabilization regs1 with
    | (.error _, regs2, tr2) => .diverges regs2 (tr1 ++ tr2)
    | (.ok token, regs2, tr2) =>
      .ok (get_stable osc token) regs2 (tr1 ++ tr2)

/-- Modelled from the spec: the blocking convenience composition, written
from the spec's words — call `initOsc`; on error, propagate that error
unchanged; otherwise loop the non-blocking readiness check until it
reports ready (the loop reads a bit that no poll iteration changes, so it
either succeeds at once or never does) and then pass the token to the
finalizer `get_stable`.  The poll loop introduces no error case of its
own. -/
def setup_spec (regs : XoscRegs) (frequency : HertzU32)
    (stable_delay_millis : Nat) : SetupResult :=
  match initOsc regs frequency stable_delay_millis with
  | (.error e, regs1, tr1) => .err e regs1 tr1
  | (.ok st, regs1, tr1) =>
    if regs1.status_stable then
      .ok (get_stable st {}) regs1 tr1
    else
      .diverges regs1 tr1

/-- The states of `CrystalOscillator<Initialized>` reachable through the
exposed API: the only constructor of an `Initialized` payload is a
successful `initOsc` call (from some register state and arguments). -/
inductive ReachableInitialized : Initialized → Prop where
  | init (regs : XoscRegs) (f : HertzU32) (d : Nat) (st : Initialized)
      (regs' : XoscRegs) (tr : List WriteEvent)
      (h : initOsc regs f d = (.ok st, regs', tr)) :
      ReachableInitialized st

/-- The states of `CrystalOscillator<Stable>` reachable through the
exposed API: the only constructor of a `Stable` payload is `get_stable`
on a reachable `Initialized` payload (with a readiness token).  `new`,
`free`, `await_stabilization`, `disable` and `dormant` produce no
`Initialized` or `Stable` payload. -/
inductive ReachableStable : Stable → Prop where
  | stable (st : Initialized) (t : StableOscillatorToken)
      (h : ReachableInitialized st) :
      ReachableStable (get_stable st t)

end Xosc

namespace Xosc

/-- A concrete power-on register state used to evaluate the driver on
concrete inputs. -/
def regs0 : XoscRegs :=
  { ctrl := { freq_range := .reset, enable := .reset }
    startup_delay := 0
    status_stable := false
    dormant := 0 }

/-- Bound on the computed startup delay: with the frequency at most
15 MHz and the delay at most 1000 ms, `(f / 1000) * d / 256 ≤ 58593`. -/
lemma startup_delay_le (f d : Nat) (hf : f ≤ 15000000) (hd : d ≤ 1000) :
    f / 1000 * d / 256 ≤ 58593 := by
  have h1 : f / 1000 ≤ 15000 := by omega
  have h2 : f / 1000 * d ≤ 15000 * 1000 := Nat.mul_le_mul h1 hd
  have h3 : f / 1000 * d / 256 ≤ 15000000 / 256 := Nat.div_le_div_right (by omega)
  omega

/-- Characterization of `initOsc` on valid arguments: it succeeds,
stores the requested frequency, and performs exactly the three writes
CTRL (frequency range), STARTUP (delay), CTRL (enable). -/
lemma initOsc_valid_eq (regs : XoscRegs) (f : HertzU32) (d : Nat)
    (hf1 : 1000000 ≤ f.raw) (hf2 : f.raw ≤ 15000000) (hd1 : 1 ≤ d) (hd2 : d ≤ 1000) :
    initOsc regs f d =
      (.ok { freq_hz := f },
       { regs with
          ctrl := { freq_range := .reset, enable := .enable }
          startup_delay := f.raw / 1000 * d / 256 },
       [.ctrl { freq_range := .range_1_15mhz, enable := .reset },
        .startup (f.raw / 1000 * d / 256),
        .ctrl { freq_range := .reset, enable := .enable }]) := by
  have hle : f.raw / 1000 * d / 256 ≤ 58593 := startup_delay_le f.raw d hf2 hd2
  have hmod : f.raw / 1000 * d / 256 % 65536 = f.raw / 1000 * d / 256 :=
    Nat.mod_eq_of_lt (by omega)
  unfold initOsc
  rw [if_neg (by simp only [HertzU32.MHz]; omega), if_neg (by omega)]
  simp [HertzU32.to_kHz, hmod]

/-- If `initOsc` succeeds, the stored frequency is the requested one and
the requested frequency passed the range validation. -/
lemma initOsc_ok_freq_in_range (regs : XoscRegs) (f : HertzU32) (d : Nat)
    (st : Initialized) (regs' : XoscRegs) (tr : List WriteEvent)
    (h : initOsc regs f d = (.ok st, regs', tr)) :
    st.freq_hz = f ∧ 1000000 ≤ f.raw ∧ f.raw ≤ 15000000 := by
  unfold initOsc at h
  split at h
  · exact absurd h (by simp)
  · next hrange =>
    split at h
    · exact absurd h (by simp)
    · simp only [Prod.mk.injEq, Except.ok.injEq] at h
      simp only [HertzU32.MHz, not_not] at hrange
      exact ⟨by rw [← h.1], by omega, by omega⟩

end Xosc

namespace Xosc

/-- C1 counterexample: at `f = 12 MHz`, `d = 0` (a valid frequency and a
bad delay), `initOsc` does fail with `BadArgument`, but it is false that
it performs no register writes and leaves the register state unchanged:
the write trace is nonempty and the register state differs. -/
theorem C1_counterexample :
    (initOsc regs0 ⟨12000000⟩ 0).1 = .error .BadArgument ∧
    ¬((initOsc regs0 ⟨12000000⟩ 0).2.2 = [] ∧ (initOsc regs0 ⟨12000000⟩ 0).2.1 = regs0) :=
  ⟨rfl, by decide⟩

/-- C1 (amended): for every valid frequency `f ∈ [1 MHz, 15 MHz]` and
every delay `d` with `d = 0` or `d > 1000`, `initOsc` fails with
`BadArgument`, but only after performing exactly one register write: the
CTRL write selecting the 1–15 MHz frequency range (so the control
register is mutated); the startup-delay register is not written and the
oscillator is not enabled. -/
theorem C1_badargument_one_ctrl_write (regs : XoscRegs) (f : HertzU32) (d : Nat)
    (hf1 : 1000000 ≤ f.raw) (hf2 : f.raw ≤ 15000000) (hd : d = 0 ∨ 1000 < d) :
    initOsc regs f d =
      (.error .BadArgument,
       { regs with ctrl := { freq_range := .range_1_15mhz, enable := .reset } },
       [.ctrl { freq_range := .range_1_15mhz, enable := .reset }]) := by
  unfold initOsc
  rw [if_neg (by simp only [HertzU32.MHz]; omega), if_pos (by omega)]

/-- C1 witness: the amended theorem applied at `f = 12 MHz`, `d = 0`. -/
theorem C1_badargument_one_ctrl_write_witness :
    (1000000 ≤ (⟨12000000⟩ : HertzU32).raw ∧ (⟨12000000⟩ : HertzU32).raw ≤ 15000000 ∧
      ((0 : Nat) = 0 ∨ 1000 < (0 : Nat))) ∧
    initOsc regs0 ⟨12000000⟩ 0 =
      (.error .BadArgument,
       { regs0 with ctrl := { freq_range := .range_1_15mhz, enable := .reset } },
       [.ctrl { freq_range := .range_1_15mhz, enable := .reset }]) :=
  ⟨⟨by decide, by decide, Or.inl rfl⟩,
    C1_badargument_one_ctrl_write regs0 ⟨12000000⟩ 0 (by decide) (by decide) (Or.inl rfl)⟩

/-- C2: for every valid frequency `f ∈ [1 MHz, 15 MHz]` (hertz) and valid
delay `d ∈ [1, 1000]` (milliseconds), the startup-delay count that
`initOsc` computes and writes to the startup-delay register equals
`(f / 1000) * d / 256` (all divisions truncating); in particular
`f = 12 MHz`, `d = 100` gives `4687`. -/
theorem C2_startup_delay_arithmetic (regs : XoscRegs) (f : HertzU32) (d : Nat)
    (hf1 : 1000000 ≤ f.raw) (hf2 : f.raw ≤ 15000000) (hd1 : 1 ≤ d) (hd2 : d ≤ 1000) :
    (initOsc regs f d).2.1.startup_delay = f.raw / 1000 * d / 256 ∧
    (initOsc regs f d).2.2.contains (.startup (f.raw / 1000 * d / 256)) = true ∧
    (initOsc regs0 ⟨12000000⟩ 100).2.1.startup_delay = 4687 := by
  rw [initOsc_valid_eq regs f d hf1 hf2 hd1 hd2]
  refine ⟨rfl, by simp, by decide⟩

/-- C2 witness: the theorem applied at `f = 12 MHz`, `d = 100`. -/
theorem C2_startup_delay_arithmetic_witness :
    (1000000 ≤ (⟨12000000⟩ : HertzU32).raw ∧ (⟨12000000⟩ : HertzU32).raw ≤ 15000000 ∧
      1 ≤ 100 ∧ 100 ≤ 1000) ∧
    (initOsc regs0 ⟨12000000⟩ 100).2.1.startup_delay =
      (⟨12000000⟩ : HertzU32).raw / 1000 * 100 / 256 :=
  ⟨⟨by decide, by decide, by decide, by decide⟩,
    (C2_startup_delay_arithmetic regs0 ⟨12000000⟩ 100 (by decide) (by decide)
      (by decide) (by decide)).1⟩

/-- C3: for every valid frequency `f ∈ [1 MHz, 15 MHz]` and valid delay
`d ∈ [1, 1000]`, the intermediate product `to_kHz f * d` is at most
15 000 000, hence below `2^32` (no `u32` overflow); the final
startup-delay count is at most 58593, hence below `2^16`, so the
narrowing `as u16` cast in `initOsc` loses no information: the value
written to the startup-delay register is exactly the untruncated
quotient. -/
theorem C3_no_overflow (regs : XoscRegs) (f : HertzU32) (d : Nat)
    (hf1 : 1000000 ≤ f.raw) (hf2 : f.raw ≤ 15000000) (hd1 : 1 ≤ d) (hd2 : d ≤ 1000) :
    f.to_kHz * d ≤ 15000000 ∧ f.to_kHz * d < 2 ^ 32 ∧
    f.to_kHz * d / 256 ≤ 58593 ∧ f.to_kHz * d / 256 < 2 ^ 16 ∧
    (initOsc regs f d).2.1.startup_delay = f.to_kHz * d / 256 := by
  have h1 : f.raw / 1000 ≤ 15000 := by omega
  have h2 : f.raw / 1000 * d ≤ 15000 * 1000 := Nat.mul_le_mul h1 hd2
  have h3 : f.raw / 1000 * d / 256 ≤ 58593 := startup_delay_le f.raw d hf2 hd2
  rw [initOsc_valid_eq regs f d hf1 hf2 hd1 hd2]
  exact ⟨by simpa [HertzU32.to_kHz] using h2, by simp only [HertzU32.to_kHz]; omega,
    by simpa [HertzU32.to_kHz] using h3, by simp only [HertzU32.to_kHz]; omega, rfl⟩

/-- C3 witness: the theorem applied at `f = 15 MHz`, `d = 1000` (the
maximum boundary the spec singles out: count 58593). -/
theorem C3_no_overflow_witness :
    (1000000 ≤ (⟨15000000⟩ : HertzU32).raw ∧ (⟨15000000⟩ : HertzU32).raw ≤ 15000000 ∧
      1 ≤ 1000 ∧ 1000 ≤ 1000) ∧
    ((⟨15000000⟩ : HertzU32).to_kHz * 1000 ≤ 15000000 ∧
     (⟨15000000⟩ : HertzU32).to_kHz * 1000 < 2 ^ 32 ∧
     (⟨15000000⟩ : HertzU32).to_kHz * 1000 / 256 ≤ 58593 ∧
     (⟨15000000⟩ : HertzU32).to_kHz * 1000 / 256 < 2 ^ 16 ∧
     (initOsc regs0 ⟨15000000⟩ 1000).2.1.startup_delay =
       (⟨15000000⟩ : HertzU32).to_kHz * 1000 / 256) :=
  ⟨⟨by decide, by decide, by decide, by decide⟩,
    C3_no_overflow regs0 ⟨15000000⟩ 1000 (by decide) (by decide) (by decide) (by decide)⟩

end Xosc

namespace Xosc

/-- C4 counterexample: at `f = 12 MHz`, `d = 100` (valid arguments),
`initOsc` succeeds but performs three register writes, not two: CTRL
(frequency range), STARTUP (delay), and CTRL again (enable). -/
theorem C4_counterexample :
    (initOsc regs0 ⟨12000000⟩ 100).1 = .ok { freq_hz := ⟨12000000⟩ } ∧
    (initOsc regs0 ⟨12000000⟩ 100).2.2.length ≠ 2 :=
  ⟨rfl, by decide⟩

/-- C4 (amended): for every valid frequency and delay, a successful
`initOsc` performs exactly three register writes, in order: one CTRL
write selecting the frequency range, one startup-delay register write,
and one further CTRL write enabling the oscillator (the enable is a
second, separate control-register write, not folded into the first). -/
theorem C4_three_writes (regs : XoscRegs) (f : HertzU32) (d : Nat)
    (hf1 : 1000000 ≤ f.raw) (hf2 : f.raw ≤ 15000000) (hd1 : 1 ≤ d) (hd2 : d ≤ 1000) :
    (initOsc regs f d).2.2 =
      [.ctrl { freq_range := .range_1_15mhz, enable := .reset },
       .startup (f.raw / 1000 * d / 256),
       .ctrl { freq_range := .reset, enable := .enable }] ∧
    (initOsc regs f d).2.2.length = 3 := by
  rw [initOsc_valid_eq regs f d hf1 hf2 hd1 hd2]
  exact ⟨rfl, rfl⟩

/-- C4 witness: the amended theorem applied at `f = 12 MHz`, `d = 100`. -/
theorem C4_three_writes_witness :
    (1000000 ≤ (⟨12000000⟩ : HertzU32).raw ∧ (⟨12000000⟩ : HertzU32).raw ≤ 15000000 ∧
      1 ≤ 100 ∧ 100 ≤ 1000) ∧
    (initOsc regs0 ⟨12000000⟩ 100).2.2.length = 3 :=
  ⟨⟨by decide, by decide, by decide, by decide⟩,
    (C4_three_writes regs0 ⟨12000000⟩ 100 (by decide) (by decide) (by decide) (by decide)).2⟩

/-- C5: for every frequency below 1 MHz or above 15 MHz and every delay,
`initOsc` fails with `FrequencyOutOfRange`, leaves the register state
unchanged and performs no register writes; and the boundary frequencies
1 MHz and 15 MHz themselves are never rejected with
`FrequencyOutOfRange`, whatever the delay (the range is inclusive). -/
theorem C5_freq_out_of_range (regs : XoscRegs) (f : HertzU32) (d : Nat)
    (h : f.raw < 1000000 ∨ 15000000 < f.raw) :
    initOsc regs f d = (.error .FrequencyOutOfRange, regs, []) ∧
    (∀ d', (initOsc regs (HertzU32.MHz 1) d').1 ≠ .error .FrequencyOutOfRange) ∧
    (∀ d', (initOsc regs (HertzU32.MHz 15) d').1 ≠ .error .FrequencyOutOfRange) := by
  refine ⟨?_, ?_, ?_⟩
  · unfold initOsc
    rw [if_pos (by simp only [HertzU32.MHz]; omega)]
  · intro d'
    unfold initOsc
    rw [if_neg (by simp [HertzU32.MHz])]
    split <;> simp
  · intro d'
    unfold initOsc
    rw [if_neg (by simp [HertzU32.MHz])]
    split <;> simp

/-- C5 witness: the theorem applied at `f = 0.5 MHz`, `d = 100`. -/
theorem C5_freq_out_of_range_witness :
    ((⟨500000⟩ : HertzU32).raw < 1000000 ∨ 15000000 < (⟨500000⟩ : HertzU32).raw) ∧
    initOsc regs0 ⟨500000⟩ 100 = (.error .FrequencyOutOfRange, regs0, []) :=
  ⟨Or.inl (by decide),
    (C5_freq_out_of_range regs0 ⟨500000⟩ 100 (Or.inl (by decide))).1⟩

/-- C6: for every `Initialized` controller produced by a successful
`initOsc` call with frequency `f` and any readiness token, finalizing
with `get_stable` and reading `operating_frequency` returns exactly `f`;
`get_stable` copies the stored frequency unchanged (its definition takes
no register state, so it cannot re-read hardware). -/
theorem C6_operating_frequency (regs : XoscRegs) (f : HertzU32) (d : Nat)
    (st : Initialized) (regs' : XoscRegs) (tr : List WriteEvent)
    (t : StableOscillatorToken)
    (h : initOsc regs f d = (.ok st, regs', tr)) :
    operating_frequency (get_stable st t) = f ∧
    get_stable st t = { freq_hz := st.freq_hz } := by
  have hfreq := (initOsc_ok_freq_in_range regs f d st regs' tr h).1
  exact ⟨by simp [operating_frequency, get_stable, hfreq], rfl⟩

/-- C6 witness: the theorem applied to the `Initialized` payload produced
by `initOsc` at `f = 12 MHz`, `d = 100`. -/
theorem C6_operating_frequency_witness :
    initOsc regs0 ⟨12000000⟩ 100 =
      (.ok { freq_hz := ⟨12000000⟩ },
       { regs0 with
          ctrl := { freq_range := .reset, enable := .enable }
          startup_delay := 4687 },
       [.ctrl { freq_range := .range_1_15mhz, enable := .reset },
        .startup 4687,
        .ctrl { freq_range := .reset, enable := .enable }]) ∧
    operating_frequency (get_stable { freq_hz := ⟨12000000⟩ } {}) = ⟨12000000⟩ :=
  ⟨rfl,
    (C6_operating_frequency regs0 ⟨12000000⟩ 100 { freq_hz := ⟨12000000⟩ } _ _ {} rfl).1⟩

/-- C7: `setup_xosc_blocking` equals the spec-side composition
`setup_spec` (call `initOsc`; propagate its error unchanged; otherwise
busy-poll the readiness check and finalize with `get_stable`), for every
register state, frequency and delay; in particular the poll loop
introduces no error outcome of its own. -/
theorem C7_setup_refines_composition (regs : XoscRegs) (f : HertzU32) (d : Nat) :
    setup_xosc_blocking regs f d = setup_spec regs f d := by
  cases hres : initOsc regs f d with
  | mk res rest =>
    cases rest with
    | mk regs1 tr1 =>
      cases res with
      | error e => simp [setup_xosc_blocking, setup_spec, hres]
      | ok st =>
        cases hs : regs1.status_stable <;>
          simp [setup_xosc_blocking, setup_spec, await_stabilization, hres, hs]

end Xosc

namespace Xosc

/-- C8: `await_stabilization` is fully characterized by one equation: it
returns the readiness token when the STATUS `stable` bit is set and
`WouldBlock` when it is clear — so those are its only two outcomes and in
particular no hard error (`NbError.other`, whose payload type `Empty` is
uninhabited) is ever produced — and it leaves the register state
unchanged and performs no register writes (empty write trace: no side
effect beyond the status read). -/
theorem C8_await_two_outcomes (regs : XoscRegs) :
    await_stabilization regs =
      ((if regs.status_stable then .ok {} else .error .wouldBlock), regs, []) := by
  unfold await_stabilization
  cases regs.status_stable <;> simp

/-- C9: every `Initialized` or `Stable` payload reachable through the
exposed API (the only producers of such payloads being a successful
`initOsc` and `get_stable` on a reachable `Initialized` payload) carries
a frequency in the inclusive validated range `[1 MHz, 15 MHz]`. -/
theorem C9_reachable_freq_validated (ist : Initialized) (st : Stable)
    (h1 : ReachableInitialized ist) (h2 : ReachableStable st) :
    (1000000 ≤ ist.freq_hz.raw ∧ ist.freq_hz.raw ≤ 15000000) ∧
    (1000000 ≤ st.freq_hz.raw ∧ st.freq_hz.raw ≤ 15000000) := by
  constructor
  · rcases h1 with ⟨regs, f, d, ist, regs', tr, h⟩
    obtain ⟨hfr, hlo, hhi⟩ := initOsc_ok_freq_in_range regs f d ist regs' tr h
    rw [hfr]
    exact ⟨hlo, hhi⟩
  · rcases h2 with ⟨ist', t, h1'⟩
    rcases h1' with ⟨regs, f, d, ist', regs', tr, h⟩
    obtain ⟨hfr, hlo, hhi⟩ := initOsc_ok_freq_in_range regs f d ist' regs' tr h
    simp only [get_stable, hfr]
    exact ⟨hlo, hhi⟩

/-- C9 witness: the theorem applied to the payloads reached by
`initOsc regs0 12 MHz 100` followed by `get_stable`. -/
theorem C9_reachable_freq_validated_witness :
    ReachableInitialized { freq_hz := ⟨12000000⟩ } ∧
    ReachableStable { freq_hz := ⟨12000000⟩ } ∧
    ((1000000 ≤ ({ freq_hz := ⟨12000000⟩ } : Initialized).freq_hz.raw ∧
       ({ freq_hz := ⟨12000000⟩ } : Initialized).freq_hz.raw ≤ 15000000) ∧
     (1000000 ≤ ({ freq_hz := ⟨12000000⟩ } : Stable).freq_hz.raw ∧
       ({ freq_hz := ⟨12000000⟩ } : Stable).freq_hz.raw ≤ 15000000)) :=
  have h1 : ReachableInitialized { freq_hz := ⟨12000000⟩ } :=
    ReachableInitialized.init regs0 ⟨12000000⟩ 100 { freq_hz := ⟨12000000⟩ }
      ({ regs0 with
          ctrl := { freq_range := .reset, enable := .enable }
          startup_delay := 4687 })
      [.ctrl { freq_range := .range_1_15mhz, enable := .reset },
       .startup 4687,
       .ctrl { freq_range := .reset, enable := .enable }] rfl
  have h2 : ReachableStable { freq_hz := ⟨12000000⟩ } :=
    ReachableStable.stable { freq_hz := ⟨12000000⟩ } {} h1
  ⟨h1, h2, C9_reachable_freq_validated { freq_hz := ⟨12000000⟩ } { freq_hz := ⟨12000000⟩ } h1 h2⟩

/-- C10: `disable` performs a read-modify-write of the CTRL register: the
written value is the just-read CTRL value with only the `ENABLE` field
set to its disable value, so the frequency-range field, the startup-delay
register, the status bit and the DORMANT register are all unchanged, and
the single write in the trace targets CTRL. -/
theorem C10_disable_frame (regs : XoscRegs) :
    disable regs =
      ({ regs with ctrl := { regs.ctrl with enable := .disable } },
       [.ctrl { regs.ctrl with enable := .disable }]) ∧
    (disable regs).1.ctrl.enable = .disable ∧
    (disable regs).1.ctrl.freq_range = regs.ctrl.freq_range ∧
    (disable regs).1.startup_delay = regs.startup_delay ∧
    (disable regs).1.status_stable = regs.status_stable ∧
    (disable regs).1.dormant = regs.dormant :=
  ⟨rfl, rfl, rfl, rfl, rfl, rfl⟩

end Xosc
